import Mathlib

/-!
Verification of the pulse-to-speed derivation core of the
Elite-RC-Telemetry-Dashboard firmware (src/ESP32_Firmware.ino).

Modelling conventions:
* `uint32_t` values are `Nat` with wraparound made explicit via `% 4294967296`;
  the C subtraction `a - b` on `uint32_t` is `sub32`.
* `float`/`double` arithmetic is modelled exactly over `ℚ` (the spec states the
  numeric results "within floating-point tolerance"; the rational model is the
  ideal value the floating-point computation approximates).
* The interrupt handler `isr_ky024` (spelled `isr_k y024` in the source) is a
  pure state transformer on the three `volatile` globals, gathered in
  `IntervalState`.
* One pass of the speed-derivation part of `loop()` is `loopTickWith`
  (parameterised by the two `constexpr` calibration values) applied at the
  sketch's constants in `loopTick`.
-/

namespace RCTelemetry

/-- Modulus of the 32-bit unsigned arithmetic used throughout: 2^32. -/
def UINT32_MOD : Nat := 4294967296

/-- Wrap-safe `uint32_t` subtraction `a - b` (C unsigned arithmetic is mod 2^32);
for `a b < UINT32_MOD` this equals `(a - b) mod 2^32`. -/
def sub32 (a b : Nat) : Nat := (a + UINT32_MOD - b) % UINT32_MOD

/-- `constexpr uint32_t MIN_PULSE_GAP_US = 2000` — the debounce floor (µs). -/
def MIN_PULSE_GAP_US : Nat := 2000

/-- `constexpr uint32_t NO_PULSE_TIMEOUT_MS = 600` — the staleness window (ms). -/
def NO_PULSE_TIMEOUT_MS : Nat := 600

/-- `constexpr float WHEEL_CIRCUMFERENCE_M = 0.210f`, modelled exactly. -/
def WHEEL_CIRCUMFERENCE_M : ℚ := 21/100

/-- `constexpr uint8_t MAGNETS_PER_REV = 1`. -/
def MAGNETS_PER_REV : Nat := 1

/-- The three `volatile` globals written by the interrupt handler:
`g_lastPulseMicros` (timestamp of the last accepted edge), `g_lastIntervalMicros`
(gap between the two most recent accepted edges), `g_pulseCount`.
All are zero-initialised at startup (`initState`). -/
structure IntervalState where
  g_lastPulseMicros : Nat
  g_lastIntervalMicros : Nat
  g_pulseCount : Nat
deriving DecidableEq, Repr

/-- Startup state of the tracker: all three globals zero (the "never fired"
sentinel). -/
def initState : IntervalState := ⟨0, 0, 0⟩

/-- The interrupt handler (source lines 64–72): compute the wrap-safe gap from
the previous accepted edge; if it clears the debounce floor, store the gap as
the new interval, the current time as the last accepted edge, and bump the
pulse counter (a `uint32_t`, hence mod 2^32); otherwise change nothing. -/
def isr_ky024 (now : Nat) (s : IntervalState) : IntervalState :=
  let gap := sub32 now s.g_lastPulseMicros
  if MIN_PULSE_GAP_US ≤ gap then
    { g_lastPulseMicros := now
      g_lastIntervalMicros := gap
      g_pulseCount := (s.g_pulseCount + 1) % UINT32_MOD }
  else s

/-- `rpmFromInterval` (source lines 75–81): zero-guard, then
`(1e6 / (interval * magnets)) * 60`, computed over the exact rationals. -/
def rpmFromInterval (intervalMicros magnetsPerRev : Nat) : ℚ :=
  if intervalMicros = 0 ∨ magnetsPerRev = 0 then 0
  else 1000000 / ((intervalMicros : ℚ) * (magnetsPerRev : ℚ)) * 60

/-- `speedMpsFromRPM` (source lines 83–87): `rpm * circumference / 60`. -/
def speedMpsFromRPM (rpm circumference_m : ℚ) : ℚ :=
  rpm * circumference_m / 60

/-- The spec's estimator interface (§4.3): `estimate(interval, ppr, circ)`
returns `(rpm, speed_mps)` by composing the two source helpers. -/
def estimate (intervalMicros magnetsPerRev : Nat) (circumference : ℚ) : ℚ × ℚ :=
  let rpm := rpmFromInterval intervalMicros magnetsPerRev
  (rpm, speedMpsFromRPM rpm circumference)

/-- The telemetry packet (source lines 47–57, `#pragma pack(1)` struct), with
the numeric fields in the exact-rational model. -/
structure Telemetry where
  speed_mps : ℚ
  speed_kph : ℚ
  rpm : ℚ
  hall_raw : Nat
  millis_ts : Nat
deriving DecidableEq, Repr

/-- One speed-derivation pass of `loop()` (source lines 144–166), parameterised
by the calibration constants: compute the wrap-safe elapsed time since the last
accepted edge (µs → ms); if it is within the staleness window and a nonzero
interval is stored, run the estimator, else force `(0, 0)`; then package the
sample, deriving `speed_kph = speed_mps * 3.6` at packaging time. -/
def loopTickWith (circumference : ℚ) (magnetsPerRev : Nat)
    (nowUs nowMs hallRaw : Nat) (snap : IntervalState) : Telemetry :=
  let sinceLastPulseMs := sub32 nowUs snap.g_lastPulseMicros / 1000
  let rs : ℚ × ℚ :=
    if sinceLastPulseMs ≤ NO_PULSE_TIMEOUT_MS ∧ 0 < snap.g_lastIntervalMicros then
      let rpm := rpmFromInterval snap.g_lastIntervalMicros magnetsPerRev
      (rpm, speedMpsFromRPM rpm circumference)
    else (0, 0)
  { speed_mps := rs.2
    speed_kph := rs.2 * (36/10)
    rpm := rs.1
    hall_raw := hallRaw
    millis_ts := nowMs }

/-- `loop()`'s tick at the sketch's calibration constants. -/
def loopTick (nowUs nowMs hallRaw : Nat) (snap : IntervalState) : Telemetry :=
  loopTickWith WHEEL_CIRCUMFERENCE_M MAGNETS_PER_REV nowUs nowMs hallRaw snap

/-- A C struct field: its size and natural alignment in bytes on the target
(ESP32: `float` 4/4, `uint16_t` 2/2, `uint32_t` 4/4). -/
structure CField where
  size : Nat
  align : Nat
deriving DecidableEq, Repr

/-- The field list of `struct Telemetry` in declaration order:
`float speed_mps; float speed_kph; float rpm; uint16_t hall_raw;
uint32_t millis_ts;`. -/
def telemetryFields : List CField :=
  [⟨4, 4⟩, ⟨4, 4⟩, ⟨4, 4⟩, ⟨2, 2⟩, ⟨4, 4⟩]

/-- Round `off` up to the next multiple of `a` (C layout alignment). -/
def alignUp (off a : Nat) : Nat :=
  if a = 0 then off else (off + a - 1) / a * a

/-- C struct layout under `#pragma pack(n)`: each field is placed at the
current offset rounded up to `min(natural alignment, n)`; the struct size is
the end offset rounded up to the largest effective alignment. Returns the
field offsets and the total size. -/
def structLayout (pack : Nat) (fs : List CField) : List Nat × Nat :=
  let step := fun (acc : List Nat × Nat × Nat) (f : CField) =>
    let al := min f.align pack
    let off := alignUp acc.2.1 al
    (acc.1 ++ [off], (off + f.size, max acc.2.2 al))
  let r := fs.foldl step ([], (0, 1))
  (r.1, alignUp r.2.1 r.2.2)

/-- Run the interrupt handler once for each timestamp in `evs`, in order. -/
def runIsrs (evs : List Nat) (s : IntervalState) : IntervalState :=
  evs.foldl (fun st t => isr_ky024 t st) s

/-- Field-by-field read of the tracker triple, as `loop()` performs it
(source lines 138–142). The interrupt handler may fire between the component
reads — `mid1` between the first and second read, `mid2` between the second
and third — but only when `irqOn` is true. Returns the assembled snapshot and
the tracker state after the section. -/
def readSnapshot (irqOn : Bool) (mid1 mid2 : List Nat) (s : IntervalState) :
    IntervalState × IntervalState :=
  let a := s.g_lastPulseMicros
  let s1 := if irqOn then runIsrs mid1 s else s
  let b := s1.g_lastIntervalMicros
  let s2 := if irqOn then runIsrs mid2 s1 else s1
  let c := s2.g_pulseCount
  (⟨a, b, c⟩, s2)

/-- The snapshot as `loop()` takes it: `noInterrupts()` before the three reads
and `interrupts()` after, so the handler cannot fire inside the section
(`irqOn = false` for the duration). -/
def loopSnapshot (mid1 mid2 : List Nat) (s : IntervalState) :
    IntervalState × IntervalState :=
  readSnapshot false mid1 mid2 s

/-! Helper lemmas about the interrupt handler. -/

/-- A rejected edge (gap below the debounce floor) leaves the state unchanged. -/
theorem isr_reject (now : Nat) (s : IntervalState)
    (h : sub32 now s.g_lastPulseMicros < MIN_PULSE_GAP_US) : isr_ky024 now s = s := by
  rw [isr_ky024]
  exact if_neg (by omega)

/-- An accepted edge (gap at or above the debounce floor) stores the gap, the
new timestamp, and increments the counter. -/
theorem isr_accept (now : Nat) (s : IntervalState)
    (h : MIN_PULSE_GAP_US ≤ sub32 now s.g_lastPulseMicros) :
    isr_ky024 now s =
      { g_lastPulseMicros := now, g_lastIntervalMicros := sub32 now s.g_lastPulseMicros,
        g_pulseCount := (s.g_pulseCount + 1) % UINT32_MOD } := by
  rw [isr_ky024]
  exact if_pos h

/-- C1: the code does NOT discard the first gap. On the very first raw edge at
`now = 500000` µs from the startup sentinel state, the gap against the sentinel
(500000 µs) clears the debounce floor, and the handler stores it as
`g_lastIntervalMicros` — it does not remain the zero "no valid measurement"
value the claim (and spec §4.1) requires. -/
theorem c1_first_edge_stores_sentinel_gap :
    initState.g_pulseCount = 0 ∧
    isr_ky024 500000 initState =
      ⟨500000, 500000, 1⟩ ∧
    (isr_ky024 500000 initState).g_lastIntervalMicros ≠ 0 := by
  decide

/-- C2: whenever the wrap-safe elapsed time since the last accepted edge
exceeds the staleness window, or the tracker is still in its startup sentinel
state, the tick outputs exactly `rpm = 0` and `speed_mps = 0`, regardless of
the stored interval (the snapshot is universally quantified). In the stale
branch the estimator is never invoked, so no division occurs at all. -/
theorem c2_stale_or_never_fired_zero (nowUs nowMs hall : Nat) (snap : IntervalState)
    (h : NO_PULSE_TIMEOUT_MS < sub32 nowUs snap.g_lastPulseMicros / 1000 ∨ snap = initState) :
    (loopTick nowUs nowMs hall snap).rpm = 0 ∧
    (loopTick nowUs nowMs hall snap).speed_mps = 0 := by
  rcases h with h | h
  · rw [loopTick, loopTickWith, if_neg (by omega)]
    exact ⟨rfl, rfl⟩
  · subst h
    rw [loopTick, loopTickWith, if_neg (by simp [initState])]
    exact ⟨rfl, rfl⟩

/-- Witness for C2: an edge was accepted with interval 500000 µs, but 700 ms
have elapsed (> 600 ms window), so the sample is zero despite the nonzero
stored interval. -/
theorem c2_stale_or_never_fired_zero_witness :
    (NO_PULSE_TIMEOUT_MS <
        sub32 700000 (IntervalState.mk 0 500000 1).g_lastPulseMicros / 1000 ∨
      (IntervalState.mk 0 500000 1) = initState) ∧
    ((loopTick 700000 123 456 ⟨0, 500000, 1⟩).rpm = 0 ∧
     (loopTick 700000 123 456 ⟨0, 500000, 1⟩).speed_mps = 0) :=
  ⟨Or.inl (by decide),
   c2_stale_or_never_fired_zero 700000 123 456 ⟨0, 500000, 1⟩ (Or.inl (by decide))⟩

/-- C3: for positive interval and pulses-per-revolution the estimator computes
`rpm = 6e7 / (interval_us * ppr)` (exactly, in the rational model of the
double-precision computation); and in the spec scenario — circumference
0.210 m, 1 pulse/rev, interval 500000 µs — the tick produces `rpm = 120`,
`speed_mps = 0.42` and `speed_kph = 1.512`. -/
theorem c3_rpm_formula_and_scenario :
    (∀ t m : Nat, 0 < t → 0 < m →
      rpmFromInterval t m = 60000000 / ((t : ℚ) * (m : ℚ))) ∧
    (loopTick 1000 0 0 ⟨0, 500000, 1⟩).rpm = 120 ∧
    (loopTick 1000 0 0 ⟨0, 500000, 1⟩).speed_mps = 21/50 ∧
    (loopTick 1000 0 0 ⟨0, 500000, 1⟩).speed_kph = 189/125 := by
  refine ⟨fun t m ht hm => ?_, ?_, ?_, ?_⟩
  · have ht0 : (t : ℚ) ≠ 0 := by positivity
    have hm0 : (m : ℚ) ≠ 0 := by positivity
    rw [rpmFromInterval, if_neg (by omega)]
    field_simp
    ring
  all_goals
    norm_num [loopTick, loopTickWith, rpmFromInterval, speedMpsFromRPM, sub32,
      UINT32_MOD, NO_PULSE_TIMEOUT_MS, MAGNETS_PER_REV, WHEEL_CIRCUMFERENCE_M]

/-- Witness for C3: the formula applied at interval 500000 µs, 1 pulse/rev. -/
theorem c3_rpm_formula_and_scenario_witness :
    (0 < 500000 ∧ 0 < 1) ∧
    rpmFromInterval 500000 1 = 60000000 / ((500000 : ℚ) * (1 : ℚ)) :=
  ⟨⟨by norm_num, by norm_num⟩,
   c3_rpm_formula_and_scenario.1 500000 1 (by norm_num) (by norm_num)⟩

/-- C4: the estimator returns the defined zero result on both degenerate
divisors: zero interval for any pulses-per-revolution and circumference, and
zero pulses-per-revolution for any interval and circumference. -/
theorem c4_estimate_degenerate_zero :
    (∀ (n : Nat) (c : ℚ), estimate 0 n c = (0, 0)) ∧
    (∀ (t : Nat) (c : ℚ), estimate t 0 c = (0, 0)) := by
  constructor <;> intro a c <;> simp [estimate, rpmFromInterval, speedMpsFromRPM]

/-- Counterexample for C5: two raw edges at t = 100 and t = 150 µs (gap 50,
below the 2000 µs floor) from the startup state produce ZERO accepted edges —
both are rejected because neither clears the floor against the sentinel — so
the pair does not increment `accepted_count` exactly once as the claim states. -/
theorem c5_two_close_edges_zero_accepts :
    sub32 150 100 < MIN_PULSE_GAP_US ∧
    (isr_ky024 150 (isr_ky024 100 initState)).g_pulseCount = 0 ∧
    ¬((isr_ky024 150 (isr_ky024 100 initState)).g_pulseCount
        = initState.g_pulseCount + 1) := by
  decide

/-- C5 (amended): a raw edge whose gap is below the debounce floor changes no
state at all; two raw edges closer than the floor produce AT MOST one accepted
edge, and EXACTLY one when the first of the pair is itself accepted. -/
theorem c5_debounce_amended :
    (∀ (now : Nat) (s : IntervalState),
      sub32 now s.g_lastPulseMicros < MIN_PULSE_GAP_US → isr_ky024 now s = s) ∧
    (∀ (s : IntervalState) (t1 t2 : Nat),
      MIN_PULSE_GAP_US ≤ sub32 t1 s.g_lastPulseMicros →
      sub32 t2 t1 < MIN_PULSE_GAP_US →
      (isr_ky024 t2 (isr_ky024 t1 s)).g_pulseCount
        = (s.g_pulseCount + 1) % UINT32_MOD) ∧
    (∀ (s : IntervalState) (t1 t2 : Nat),
      sub32 t2 t1 < MIN_PULSE_GAP_US →
      (isr_ky024 t2 (isr_ky024 t1 s)).g_pulseCount = s.g_pulseCount ∨
      (isr_ky024 t2 (isr_ky024 t1 s)).g_pulseCount
        = (s.g_pulseCount + 1) % UINT32_MOD) := by
  refine ⟨isr_reject, fun s t1 t2 hacc hclose => ?_, fun s t1 t2 hclose => ?_⟩
  · rw [isr_accept t1 s hacc, isr_reject]
    exact hclose
  · by_cases h1 : MIN_PULSE_GAP_US ≤ sub32 t1 s.g_lastPulseMicros
    · right
      rw [isr_accept t1 s h1, isr_reject]
      exact hclose
    · rw [isr_reject t1 s (by omega)]
      by_cases h2 : MIN_PULSE_GAP_US ≤ sub32 t2 s.g_lastPulseMicros
      · right; rw [isr_accept t2 s h2]
      · left; rw [isr_reject t2 s (by omega)]

/-- Witness for C5 (amended): a rejected edge at 100 µs changes nothing; an
accepted edge at 5000 µs followed by a bounce at 5100 µs increments the
counter exactly once; the at-most-once disjunction holds at the same pair. -/
theorem c5_debounce_amended_witness :
    (sub32 100 initState.g_lastPulseMicros < MIN_PULSE_GAP_US ∧
      isr_ky024 100 initState = initState) ∧
    (MIN_PULSE_GAP_US ≤ sub32 5000 initState.g_lastPulseMicros ∧
      sub32 5100 5000 < MIN_PULSE_GAP_US ∧
      (isr_ky024 5100 (isr_ky024 5000 initState)).g_pulseCount
        = (initState.g_pulseCount + 1) % UINT32_MOD) ∧
    ((isr_ky024 5100 (isr_ky024 5000 initState)).g_pulseCount
        = initState.g_pulseCount ∨
      (isr_ky024 5100 (isr_ky024 5000 initState)).g_pulseCount
        = (initState.g_pulseCount + 1) % UINT32_MOD) :=
  ⟨⟨by decide, c5_debounce_amended.1 100 initState (by decide)⟩,
   ⟨by decide, by decide,
    c5_debounce_amended.2.1 initState 5000 5100 (by decide) (by decide)⟩,
   c5_debounce_amended.2.2 initState 5000 5100 (by decide)⟩

/-- C6: duration math over the 32-bit microsecond counter is wrap-safe. If two
physical instants `t1 ≤ t2` are less than 2^32 µs apart, then the modular
subtraction `sub32` applied to the wrapped counter readings recovers the true
duration `t2 - t1`; consequently the interrupt handler, fed the wrapped
reading, debounces against and stores the TRUE gap even when the counter
wrapped between the two edges. -/
theorem c6_wrap_safe_durations (t1 t2 : Nat) (h1 : t1 ≤ t2)
    (h2 : t2 - t1 < UINT32_MOD) :
    sub32 (t2 % UINT32_MOD) (t1 % UINT32_MOD) = t2 - t1 ∧
    (∀ s : IntervalState, s.g_lastPulseMicros = t1 % UINT32_MOD →
      isr_ky024 (t2 % UINT32_MOD) s =
        if MIN_PULSE_GAP_US ≤ t2 - t1 then
          { g_lastPulseMicros := t2 % UINT32_MOD, g_lastIntervalMicros := t2 - t1,
            g_pulseCount := (s.g_pulseCount + 1) % UINT32_MOD }
        else s) := by
  have hgap : sub32 (t2 % UINT32_MOD) (t1 % UINT32_MOD) = t2 - t1 := by
    simp only [sub32, UINT32_MOD] at *
    omega
  refine ⟨hgap, fun s hs => ?_⟩
  rw [isr_ky024, hs, hgap]

/-- Witness for C6: the counter wraps between an edge at real time
2^32 - 1000 µs and one at 2^32 + 500 µs; the wrapped readings are 4294966296
and 500, yet the computed gap is the true 1500 µs, which is below the 2000 µs
floor, so the handler correctly rejects the edge. -/
theorem c6_wrap_safe_durations_witness :
    (4294966296 ≤ 4294967796 ∧ 4294967796 - 4294966296 < UINT32_MOD ∧
      (IntervalState.mk (4294966296 % UINT32_MOD) 0 0).g_lastPulseMicros
        = 4294966296 % UINT32_MOD) ∧
    sub32 (4294967796 % UINT32_MOD) (4294966296 % UINT32_MOD) = 1500 ∧
    isr_ky024 (4294967796 % UINT32_MOD) ⟨4294966296 % UINT32_MOD, 0, 0⟩
      = ⟨4294966296 % UINT32_MOD, 0, 0⟩ := by
  have h := c6_wrap_safe_durations 4294966296 4294967796 (by norm_num)
    (by norm_num [UINT32_MOD])
  refine ⟨⟨by norm_num, by norm_num [UINT32_MOD], rfl⟩, h.1, ?_⟩
  rw [h.2 ⟨4294966296 % UINT32_MOD, 0, 0⟩ rfl,
    if_neg (by norm_num [MIN_PULSE_GAP_US])]

/-- C7: in every sample the tick packages, the kph field is derived from the
very `speed_mps` placed in the same sample, as `speed_mps * 3.6`, for every
calibration and every input. -/
theorem c7_kph_derived_from_mps (c : ℚ) (m nowUs nowMs hall : Nat)
    (snap : IntervalState) :
    (loopTickWith c m nowUs nowMs hall snap).speed_kph
      = (loopTickWith c m nowUs nowMs hall snap).speed_mps * (36/10) := rfl

/-- C8: under `#pragma pack(1)` the telemetry struct lays its five fields at
offsets 0, 4, 8, 12, 14 — each field immediately after the previous one, i.e.
no padding — and the total size, which `sizeof(tx)` hands to the broadcast
call, is exactly 18 bytes, the sum of the field sizes. -/
theorem c8_packet_layout :
    structLayout 1 telemetryFields = ([0, 4, 8, 12, 14], 18) ∧
    (telemetryFields.map CField.size).sum = 18 := by
  decide

/-- C9: the snapshot `loop()` takes inside its `noInterrupts()` /
`interrupts()` section equals the tracker state at the section entry, for any
interrupt-handler invocations (`mid1`, `mid2`) that would otherwise have fired
between the three component reads — so the triple is always a state that
existed at a real instant and can never be torn. -/
theorem c9_snapshot_never_torn (s : IntervalState) (mid1 mid2 : List Nat) :
    loopSnapshot mid1 mid2 s = (s, s) := rfl

/-- C10: every sample is kinematically non-negative: for any positive
circumference, any pulses-per-revolution, any tracker state and any times, the
produced `rpm`, `speed_mps` and `speed_kph` are all `≥ 0` (and `hall_raw`,
`millis_ts` are naturals, hence non-negative by type). -/
theorem c10_sample_nonneg (c : ℚ) (hc : 0 < c) (m nowUs nowMs hall : Nat)
    (snap : IntervalState) :
    0 ≤ (loopTickWith c m nowUs nowMs hall snap).rpm ∧
    0 ≤ (loopTickWith c m nowUs nowMs hall snap).speed_mps ∧
    0 ≤ (loopTickWith c m nowUs nowMs hall snap).speed_kph := by
  have hrpm : 0 ≤ rpmFromInterval snap.g_lastIntervalMicros m := by
    rw [rpmFromInterval]
    split
    · exact le_refl 0
    · positivity
  have hsp : 0 ≤ speedMpsFromRPM (rpmFromInterval snap.g_lastIntervalMicros m) c := by
    rw [speedMpsFromRPM]
    positivity
  rw [loopTickWith]
  split
  · refine ⟨hrpm, hsp, ?_⟩
    simp only
    positivity
  · norm_num

/-- Witness for C10: the sketch's own calibration (circumference 0.21 m > 0)
at an arbitrary concrete state. -/
theorem c10_sample_nonneg_witness :
    (0 : ℚ) < 21/100 ∧
    (0 ≤ (loopTickWith (21/100) 1 5000 3 77 ⟨0, 500000, 1⟩).rpm ∧
     0 ≤ (loopTickWith (21/100) 1 5000 3 77 ⟨0, 500000, 1⟩).speed_mps ∧
     0 ≤ (loopTickWith (21/100) 1 5000 3 77 ⟨0, 500000, 1⟩).speed_kph) :=
  ⟨by norm_num, c10_sample_nonneg (21/100) (by norm_num) 1 5000 3 77 ⟨0, 500000, 1⟩⟩

end RCTelemetry
